import Mathlib

/-!
Verification of the dify_plugin_client request/response/error-mapping core.

The Python source (`impl/base.py`, `impl/plugin.py`, `entities/tools.py`,
`exceptions.py`) is shallowly embedded below: loosely-typed Python values
become the inductive `PyVal`, raised exceptions become `Except`/error
values, and the streaming generator becomes an explicit list-of-lines
pipeline returning the yielded items together with the terminating error,
if any.  Library behaviour that the source delegates to (pydantic
validation, `json.loads`) is passed in as function parameters so that the
theorems quantify over it.
-/

namespace DifyClient

/-- The exact value of a Python float, as the decimal fixed-point number
`mant / 10 ^ frac`.  Decimal literals (the only way floats enter the code
under verification) denote exactly such numbers; infinities and NaN are
outside this model and are noted where relevant. -/
structure PyFloat where
  mant : Int
  frac : Nat

/-- A loosely-typed Python/JSON value as handled by the client:
`None`, `bool`, `int`, `float`, `str`, `list` and `dict` (an
insertion-ordered association list, keys unique as produced by JSON
parsing). -/
inductive PyVal where
  | none
  | bool (b : Bool)
  | int (i : Int)
  | float (f : PyFloat)
  | str (s : String)
  | list (xs : List PyVal)
  | dict (fields : List (String × PyVal))

/-- Python truthiness (`bool(v)`): `None`/`False`/`0`/`0.0`/`""`/`[]`/`{}`
are falsy, everything else truthy. -/
def pyTruthy : PyVal → Bool
  | .none => false
  | .bool b => b
  | .int i => i != 0
  | .float f => f.mant != 0
  | .str s => s != ""
  | .list xs => !xs.isEmpty
  | .dict fs => !fs.isEmpty

/-- The numeric value of a Python number as a decimal fixed-point pair,
if the value is a number (`bool` is an `int` subtype in Python, so `True`
counts as `1`). -/
def pyNumVal : PyVal → Option (Int × Nat)
  | .bool b => some (if b then 1 else 0, 0)
  | .int i => some (i, 0)
  | .float f => some (f.mant, f.frac)
  | _ => Option.none

/-- Equality of two decimal fixed-point numbers, by cross-multiplication. -/
def numEq (a b : Int × Nat) : Bool :=
  a.1 * 10 ^ b.2 == b.1 * 10 ^ a.2

/-- First-match lookup in a Python dict modelled as an association list. -/
def dictGet (fields : List (String × PyVal)) (k : String) : Option PyVal :=
  match fields with
  | [] => Option.none
  | (k1, v) :: rest => if k1 = k then some v else dictGet rest k

/-- `d.get(k)`: lookup returning `None` when the key is absent. -/
def pyGet (fields : List (String × PyVal)) (k : String) : PyVal :=
  (dictGet fields k).getD .none

mutual
/-- Python `==` on the values the client handles: numbers compare by value
across `bool`/`int`/`float`, strings by content, lists elementwise, dicts by
per-key lookup; values of unrelated types compare unequal. -/
def pyEq : PyVal → PyVal → Bool
  | a, b =>
    match pyNumVal a, pyNumVal b with
    | some x, some y => numEq x y
    | _, _ =>
      match a, b with
      | .none, .none => true
      | .str s, .str t => s == t
      | .list xs, .list ys => pyEqItems xs ys
      | .dict fs, .dict gs => fs.length == gs.length && pyEqFields fs gs
      | _, _ => false

def pyEqItems : List PyVal → List PyVal → Bool
  | [], [] => true
  | x :: xs, y :: ys => pyEq x y && pyEqItems xs ys
  | _, _ => false

def pyEqFields : List (String × PyVal) → List (String × PyVal) → Bool
  | [], _ => true
  | (k, v) :: rest, gs =>
    (match dictGet gs k with
     | some w => pyEq v w
     | Option.none => false)
    && pyEqFields rest gs
end

/-- Drop trailing decimal zeros of a fixed-point number, so that the
rendered form is the shortest decimal naming the value (as CPython's float
`str` produces for these numbers). -/
def floatNormalize : Int → Nat → Int × Nat
  | m, 0 => (m, 0)
  | m, f + 1 => if m % 10 = 0 then floatNormalize (m / 10) f else (m, f + 1)

/-- Zero-padded decimal digit string of `n`, `width` digits long. -/
def padDigits (n : Nat) (width : Nat) : String :=
  let ds := toString n
  (List.replicate (width - ds.length) '0').asString ++ ds

/-- Python `str()` of a float: plain decimal rendering with at least one
fractional digit (`str(1.0) = "1.0"`, `str(3.5) = "3.5"`).  CPython's
scientific notation for very large/small magnitudes is not modelled; no
claim depends on it. -/
def floatStr (x : PyFloat) : String :=
  let (m, f) := floatNormalize x.mant x.frac
  let sign := if m < 0 then "-" else ""
  let a := m.natAbs
  let ip := a / 10 ^ f
  let fp := a % 10 ^ f
  sign ++ toString ip ++ "." ++ (if f = 0 then "0" else padDigits fp f)

mutual
/-- Python `repr(v)`: strings are single-quoted (escape handling inside
strings is not modelled; no claim exercises it), containers render their
elements by `repr`, other values render as their `str` form. -/
def pyRepr : PyVal → String
  | .none => "None"
  | .bool b => if b then "True" else "False"
  | .int i => toString i
  | .float f => floatStr f
  | .str s => "'" ++ s ++ "'"
  | .list xs => "[" ++ pyReprItems xs ++ "]"
  | .dict fs => "\x7b" ++ pyReprFields fs ++ "\x7d"

def pyReprItems : List PyVal → String
  | [] => ""
  | [v] => pyRepr v
  | v :: rest => pyRepr v ++ ", " ++ pyReprItems rest

def pyReprFields : List (String × PyVal) → String
  | [] => ""
  | [(k, v)] => "'" ++ k ++ "': " ++ pyRepr v
  | (k, v) :: rest => "'" ++ k ++ "': " ++ pyRepr v ++ ", " ++ pyReprFields rest
end

/-- Python `str(v)`: the string itself for strings, otherwise the same as
`repr` (which is what CPython produces for `None`, booleans, numbers and
containers). -/
def pyStr : PyVal → String
  | .str s => s
  | v => pyRepr v

/-! ### Python number parsing (`int(s)`, `float(s)`) -/

/-- Python `s.strip()` (no argument): remove leading and trailing
whitespace.  Whitespace is modelled as ASCII space/tab/CR/LF. -/
def stripChars (cs : List Char) : List Char :=
  ((cs.dropWhile Char.isWhitespace).reverse.dropWhile Char.isWhitespace).reverse

/-- `s.strip()` on strings. -/
def pyStrip (s : String) : String := (stripChars s.toList).asString

/-- `c in s` for a single character (`"." in value`). -/
def containsChar (c : Char) (s : String) : Bool := s.toList.contains c

/-- Python `s.lower()`, modelled for ASCII letters. -/
def strLower (s : String) : String := (s.toList.map Char.toLower).asString

/-- Scan a run of decimal digits with CPython's underscore rule (an
underscore may appear only between two digits).  Returns the accumulated
value, the digit count, and the unconsumed remainder; fails on a misplaced
underscore. -/
def digitRun : List Char → Nat → Nat → Option (Nat × Nat × List Char)
  | [], acc, cnt => some (acc, cnt, [])
  | c :: rest, acc, cnt =>
    if c.isDigit then digitRun rest (acc * 10 + (c.toNat - 48)) (cnt + 1)
    else if c = '_' then
      if cnt = 0 then Option.none
      else
        match rest with
        | d :: _ => if d.isDigit then digitRun rest acc cnt else Option.none
        | [] => Option.none
    else some (acc, cnt, c :: rest)

/-- Python `int(s)` for base 10: strip surrounding whitespace, optional
sign, then a non-empty digit run consuming the whole remainder. -/
def pyParseInt (s : String) : Option Int :=
  let core : List Char → Option Nat := fun cs =>
    match digitRun cs 0 0 with
    | some (v, cnt, []) => if cnt = 0 then Option.none else some v
    | _ => Option.none
  match stripChars s.toList with
  | '+' :: rest => (core rest).map Int.ofNat
  | '-' :: rest => (core rest).map (fun n => -(n : Int))
  | cs => (core cs).map Int.ofNat

/-- The optional exponent tail of a Python float literal (`e`/`E`, optional
sign, non-empty digit run).  An empty remainder means exponent `0`. -/
def floatExponent : List Char → Option Int
  | [] => some 0
  | c :: rest =>
    if c = 'e' ∨ c = 'E' then
      let (sgn, rest2) : Int × List Char :=
        match rest with
        | '+' :: r => (1, r)
        | '-' :: r => (-1, r)
        | r => (1, r)
      match digitRun rest2 0 0 with
      | some (v, cnt, []) => if cnt = 0 then Option.none else some (sgn * v)
      | _ => Option.none
    else Option.none

/-- Apply the decimal exponent `e` to the fixed-point number `m / 10^f`. -/
def applyExponent (m : Int) (f : Nat) (e : Int) : PyFloat :=
  if 0 ≤ e then ⟨m * 10 ^ e.toNat, f⟩ else ⟨m, f + (-e).toNat⟩

/-- Python `float(s)` on finite decimal literals: strip whitespace,
optional sign, `digits [. digits] [exp]` with at least one mantissa digit.
The `inf`/`infinity`/`nan` spellings are not finite numbers and are not
modelled; they contain no `.`, so the number cast (which only calls
`float()` on strings containing `.`) never reaches them. -/
def pyParseFloat (s : String) : Option PyFloat :=
  let mantissa : List Char → Option PyFloat := fun cs => do
    let (ip, ipCnt, rest) ← digitRun cs 0 0
    match rest with
    | '.' :: rest2 => do
      let (fp, fpCnt, rest3) ← digitRun rest2 0 0
      if ipCnt = 0 ∧ fpCnt = 0 then Option.none
      else do
        let e ← floatExponent rest3
        some (applyExponent (ip * 10 ^ fpCnt + fp) fpCnt e)
    | _ =>
      if ipCnt = 0 then Option.none
      else do
        let e ← floatExponent rest
        some (applyExponent ip 0 e)
  match stripChars s.toList with
  | '+' :: rest => mantissa rest
  | '-' :: rest => (mantissa rest).map (fun x => ⟨-x.mant, x.frac⟩)
  | cs => mantissa cs

/-! ### Tool parameter declarations and the type-directed cast
(`entities/tools.py` `ToolParameter`, `impl/plugin.py`
`_cast_tool_parameter_value`) -/

/-- `ToolParameter.ToolParameterType` from `entities/tools.py`. -/
inductive ToolParameterType where
  | string
  | textInput
  | number
  | boolean
  | select
  | dynamicSelect
  | appSelector
  | modelSelector
  | toolsSelector
  | any
  | object
  | checkbox
  | secretInput
  | file
  | files
  | array
deriving DecidableEq

/-- The fields of `ToolParameter` that `_cast_tool_parameter_value` reads
(`label`, `form` and `llm_description` are display-only and unused by the
cast). `options` is `list[Any] | None`. -/
structure ToolParameter where
  name : String
  type : ToolParameterType
  required : Bool
  options : Option (List PyVal) := Option.none

/-- The client-side error taxonomy: exceptions from `exceptions.py`
plus the `ValueError`s and `httpx.HTTPStatusError`s the code raises.
`valueErrorVal` models `ValueError(x)` applied to a non-string object
(as in the stream decoder's `line_data.get("error", line)`);
`exceptionOther` models remaining `Exception`s (unknown daemon error type,
attribute errors on unexpected shapes). -/
inductive ClientError where
  | valueError (msg : String)
  | valueErrorVal (v : PyVal)
  | daemonInnerError (code : Int) (msg : String)
  | httpStatusError (status : Nat)
  | pluginInvokeError (msg : String)
  | pluginDaemonInternalServerError (msg : String)
  | pluginDaemonBadRequestError (msg : String)
  | pluginDaemonNotFoundError (msg : String)
  | pluginUniqueIdentifierError (msg : String)
  | pluginNotFoundError (msg : String)
  | pluginDaemonUnauthorizedError (msg : String)
  | pluginPermissionDeniedError (msg : String)
  | exceptionOther (msg : String)

/-- `str(value)` applied only when the value is not already a string:
`value if isinstance(value, str) else str(value)`. -/
def stringifyIfNeeded (v : PyVal) : PyVal :=
  match v with
  | .str s => .str s
  | v => .str (pyStr v)

/-- The `STRING | SECRET_INPUT` case of `_cast_tool_parameter_value`. -/
def castStringParameter (param : ToolParameter) (value : PyVal) :
    Except ClientError PyVal :=
  match value with
  | .none =>
    if param.required then
      .error (.valueError ("tool parameter " ++ param.name ++ " is required"))
    else .ok (.str "")
  | v => .ok (stringifyIfNeeded v)

/-- The `SELECT` case of `_cast_tool_parameter_value`: note the membership
test `value not in options` compares the raw value (by Python `==`), not
its string form; stringification happens only on the returned value. -/
def castSelectParameter (param : ToolParameter) (value : PyVal) :
    Except ClientError PyVal :=
  match value with
  | .none =>
    if param.required then
      .error (.valueError ("tool parameter " ++ param.name ++ " is required"))
    else .ok (.str "")
  | v =>
    match param.options with
    | some opts =>
      if !opts.isEmpty then
        if opts.any (fun o => pyEq v o) then .ok (stringifyIfNeeded v)
        else
          .error (.valueError ("tool parameter " ++ param.name ++ " value "
            ++ pyStr v ++ " not in options " ++ pyStr (.list opts)))
      else .ok (stringifyIfNeeded v)
    | Option.none => .ok (stringifyIfNeeded v)

/-- The `BOOLEAN` case of `_cast_tool_parameter_value`. -/
def castBooleanParameter (value : PyVal) : Except ClientError PyVal :=
  match value with
  | .none => .ok (.bool false)
  | .str s =>
    let lowered := strLower s
    if lowered = "true" ∨ lowered = "yes" ∨ lowered = "y" ∨ lowered = "1" then
      .ok (.bool true)
    else if lowered = "false" ∨ lowered = "no" ∨ lowered = "n" ∨ lowered = "0" then
      .ok (.bool false)
    else .ok (.bool (pyTruthy (.str s)))
  | v => .ok (.bool (pyTruthy v))

/-- The `NUMBER` case of `_cast_tool_parameter_value` (`bool` passes the
`isinstance(value, (int, float))` check, being an `int` subtype). -/
def castNumberParameter (param : ToolParameter) (value : PyVal) :
    Except ClientError PyVal :=
  match value with
  | .none => .ok (.int 0)
  | .bool b => .ok (.bool b)
  | .int i => .ok (.int i)
  | .float q => .ok (.float q)
  | .str s =>
    if s ≠ "" then
      if containsChar '.' s then
        match pyParseFloat s with
        | some q => .ok (.float q)
        | Option.none =>
          .error (.valueError ("tool parameter " ++ param.name ++ " expects a number"))
      else
        match pyParseInt s with
        | some i => .ok (.int i)
        | Option.none =>
          .error (.valueError ("tool parameter " ++ param.name ++ " expects a number"))
    else
      .error (.valueError ("tool parameter " ++ param.name ++ " expects a number"))
  | _ =>
    .error (.valueError ("tool parameter " ++ param.name ++ " expects a number"))

/-- The `FILE` case of `_cast_tool_parameter_value`. -/
def castFileParameter (value : PyVal) : Except ClientError PyVal :=
  match value with
  | .list [x] => .ok x
  | .list _ =>
    .error (.valueError
      "This parameter only accepts one file but got multiple files while invoking.")
  | v => .ok v

/-- The `FILES | ARRAY` case of `_cast_tool_parameter_value`. -/
def castFilesParameter (value : PyVal) : Except ClientError PyVal :=
  match value with
  | .none => .ok (.list [])
  | .list xs => .ok (.list xs)
  | v => .ok (.list [v])

/-- `DifyPluginClient._cast_tool_parameter_value` (impl/plugin.py):
casts one caller-supplied raw value according to the parameter's declared
type; raised `ValueError`s become `Except.error`.  A missing parameter
(`dict.get` miss) and an explicit `None` both arrive as `PyVal.none`. -/
def castToolParameterValue (param : ToolParameter) (value : PyVal) :
    Except ClientError PyVal :=
  match param.type with
  | .string | .secretInput => castStringParameter param value
  | .select => castSelectParameter param value
  | .boolean => castBooleanParameter value
  | .number => castNumberParameter param value
  | .file => castFileParameter value
  | .files | .array => castFilesParameter value
  | _ => .ok value

/-! ### Provider-reference parsing (`_parse_tool_provider_id`) -/

/-- Python `s.split(sep)` for a one-character separator: always returns at
least one (possibly empty) segment. -/
def splitOnChar (sep : Char) : List Char → List (List Char)
  | [] => [[]]
  | c :: rest =>
    let r := splitOnChar sep rest
    if c = sep then [] :: r
    else
      match r with
      | g :: gs => (c :: g) :: gs
      | [] => [[c]]

/-- `tool_provider.split("/")` as strings. -/
def pySplitSlash (s : String) : List String :=
  (splitOnChar '/' s.toList).map List.asString

/-- `_parse_tool_provider_id` (impl/plugin.py): two segments give
`(whole, second)`, three give `(first ++ "/" ++ second, third)`, anything
else raises `ValueError`. -/
def parseToolProviderId (toolProvider : String) : Except ClientError (String × String) :=
  let parts := pySplitSlash toolProvider
  if parts.length = 2 then
    .ok (toolProvider, parts.getD 1 "")
  else if parts.length = 3 then
    .ok (parts.getD 0 "" ++ "/" ++ parts.getD 1 "", parts.getD 2 "")
  else
    .error (.valueError ("Invalid provider format. Expected 'plugin_id/provider_name' or "
      ++ "'organization/plugin_name/provider_name'."))

/-! ### Transport, envelope unwrap and stream decoding (`impl/base.py`) -/

/-- A low-level `httpx.RequestError`: DNS failure, connection failure,
timeout before headers, and the like. -/
inductive TransportError where
  | dns
  | connect
  | timeout
  | other (msg : String)

/-- An HTTP response once headers (status) and body are available. -/
structure HttpResponse where
  status : Nat
  body : String

/-- `BasePluginClient._request`: the transport boundary.  The outcome of
`httpx.request` is the input; an `httpx.RequestError` is translated into
`PluginDaemonInnerError(code=-500, ...)`, everything else passes through. -/
def requestRaw (t : Except TransportError HttpResponse) :
    Except ClientError HttpResponse :=
  match t with
  | .error _ =>
    .error (.daemonInnerError (-500) "Request to Plugin Daemon Service failed")
  | .ok r => .ok r

/-- `response.raise_for_status()`: 4xx/5xx statuses raise
`httpx.HTTPStatusError`. -/
def raiseForStatus (r : HttpResponse) : Except ClientError HttpResponse :=
  if 400 ≤ r.status then .error (.httpStatusError r.status) else .ok r

/-- The `except` clauses of `_request_with_plugin_daemon_response`
(impl/base.py lines 204-213): an `httpx.HTTPStatusError` from the `try`
block is re-raised as-is; every other exception — including the
`PluginDaemonInnerError` that `_request` raises on transport failure — is
replaced by `ValueError("Failed to request plugin daemon, url: ...")`. -/
def catchRequestPhase (path : String) (e : ClientError) : ClientError :=
  match e with
  | .httpStatusError s => .httpStatusError s
  | _ => .valueError ("Failed to request plugin daemon, url: " ++ path)

/-- The request-and-status phase of `_request_with_plugin_daemon_response`:
`self._request(...)` then `response.raise_for_status()`, inside the
`try`/`except` modelled by `catchRequestPhase`. -/
def requestPhase (path : String) (t : Except TransportError HttpResponse) :
    Except ClientError HttpResponse :=
  match (requestRaw t).bind raiseForStatus with
  | .error e => .error (catchRequestPhase path e)
  | .ok r => .ok r

/-- The `{code, message, data}` response envelope
(`PluginDaemonBasicResponse[T]`), after pydantic validation. -/
structure Envelope (α : Type) where
  code : Int
  message : String
  data : Option α

/-- The `{error_type, message}` payload of `PluginDaemonError`. -/
structure PDErrorPayload where
  errorType : String
  message : String

/-- `BasePluginClient._handle_plugin_daemon_error`: the exhaustive
`error_type` dispatch table; always raises, the returned value being the
exception raised. -/
def handlePluginDaemonError (errorType message : String) : ClientError :=
  match errorType with
  | "PluginDaemonInnerError" => .daemonInnerError (-500) message
  | "PluginInvokeError" => .pluginInvokeError message
  | "PluginDaemonInternalServerError" => .pluginDaemonInternalServerError message
  | "PluginDaemonBadRequestError" => .pluginDaemonBadRequestError message
  | "PluginDaemonNotFoundError" => .pluginDaemonNotFoundError message
  | "PluginUniqueIdentifierError" => .pluginUniqueIdentifierError message
  | "PluginNotFoundError" => .pluginNotFoundError message
  | "PluginDaemonUnauthorizedError" => .pluginDaemonUnauthorizedError message
  | "PluginPermissionDeniedError" => .pluginPermissionDeniedError message
  | _ =>
    .exceptionOther ("got unknown error from plugin daemon: " ++ errorType
      ++ ", message: " ++ message)

/-- The envelope-unwrap tail of `_request_with_plugin_daemon_response`
(impl/base.py lines 228-239).  `parseError` stands for
`PluginDaemonError.model_validate(json.loads(message))`: `some` when the
message is a JSON object of that shape, `none` when that parse raises.
The source's empty-data message embeds `inspect`'s current line number;
it is modelled as the fixed prefix text. -/
def unwrapEnvelope {α : Type} (parseError : String → Option PDErrorPayload)
    (rep : Envelope α) : Except ClientError α :=
  if rep.code ≠ 0 then
    match parseError rep.message with
    | Option.none => .error (.valueError (rep.message ++ ", code: " ++ toString rep.code))
    | some err => .error (handlePluginDaemonError err.errorType err.message)
  else
    match rep.data with
    | Option.none => .error (.valueError "got empty data from plugin daemon")
    | some d => .ok d

/-- `_request_with_plugin_daemon_response`, end to end: transport phase,
then body decode (`response.json()`, the optional `transformer`, and
pydantic validation of the envelope, folded into the `decodeEnvelope`
parameter — `none` models any exception in that `try` block), then
envelope unwrap. -/
def requestWithPluginDaemonResponse {α : Type} (path : String)
    (decodeEnvelope : String → Option (Envelope α))
    (parseError : String → Option PDErrorPayload)
    (t : Except TransportError HttpResponse) : Except ClientError α :=
  match requestPhase path t with
  | .error e => .error e
  | .ok r =>
    match decodeEnvelope r.body with
    | Option.none =>
      .error (.valueError
        ("Failed to parse response from plugin daemon to PluginDaemonBasicResponse, url: "
          ++ path))
    | some rep => unwrapEnvelope parseError rep

/-- One raw line of a streaming response body as `_stream_request`
processes it: empty lines are skipped, the line is stripped, a `data:`
marker and its surrounding whitespace are removed, and the remainder is
yielded only if non-empty. -/
def filterRawLine (raw : String) : Option String :=
  if raw = "" then Option.none
  else
    let line := pyStrip raw
    let line :=
      if line.toList.take 5 = "data:".toList then (pyStrip ((line.toList.drop 5).asString))
      else line
    if line = "" then Option.none else some line

/-- A streaming response: status line plus the decoded raw lines of the
body (`response.iter_lines()`). -/
structure StreamResponse where
  status : Nat
  lines : List String

/-- `BasePluginClient._stream_request`: a transport-level failure (before
or while reading, `httpx.RequestError`) becomes
`PluginDaemonInnerError(-500)`; a non-2xx status raises
`httpx.HTTPStatusError` (not a `RequestError`, so it propagates untouched);
otherwise the filtered payload lines are produced. -/
def streamRequest (t : Except TransportError StreamResponse) :
    Except ClientError (List String) :=
  match t with
  | .error _ =>
    .error (.daemonInnerError (-500) "Request to Plugin Daemon Service failed")
  | .ok r =>
    if 400 ≤ r.status then .error (.httpStatusError r.status)
    else .ok (r.lines.filterMap filterRawLine)

/-- The error raised for a streamed envelope with `code != 0`
(impl/base.py lines 264-273): the message is probed as a structured
`{error_type, message}` object and dispatched; a `PluginDaemonInnerError`
from the dispatch propagates, any other exception (parse failure or a
non-inner dispatched error, both swallowed by `except Exception`) falls
back to `PluginDaemonInnerError` when `code == -500` and otherwise to
`ValueError("plugin daemon: ...")`. -/
def streamErrorFor {α : Type} (parseError : String → Option PDErrorPayload)
    (rep : Envelope α) : ClientError :=
  let fallback : ClientError :=
    if rep.code = -500 then .daemonInnerError rep.code rep.message
    else .valueError ("plugin daemon: " ++ rep.message ++ ", code: " ++ toString rep.code)
  match parseError rep.message with
  | Option.none => fallback
  | some err =>
    match handlePluginDaemonError err.errorType err.message with
    | .daemonInnerError c m => .daemonInnerError c m
    | _ => fallback

/-- The error raised when a streamed line fails envelope validation
(impl/base.py lines 255-262): re-parse the line as bare JSON
(`parseJson`); if even that fails, `ValueError(line)`; otherwise
`ValueError(line_data.get("error", line))`.  A non-dict JSON value has no
`.get` and the source would raise `AttributeError` there. -/
def lineDecodeFailure (parseJson : String → Option PyVal) (l : String) : ClientError :=
  match parseJson l with
  | Option.none => .valueError l
  | some (.dict fs) => .valueErrorVal ((dictGet fs "error").getD (.str l))
  | some _ => .exceptionOther "AttributeError"

/-- The per-line loop of `_request_with_plugin_daemon_response_stream`
(impl/base.py lines 254-277), made explicit: the pair of the values
yielded before the generator stops and the exception that stopped it
(`none` when the input was exhausted normally).  `decodeLine` stands for
`PluginDaemonBasicResponse[T].model_validate_json(line)`. -/
def decodeStreamLines {α : Type} (decodeLine : String → Option (Envelope α))
    (parseError : String → Option PDErrorPayload)
    (parseJson : String → Option PyVal) :
    List String → List α × Option ClientError
  | [] => ([], Option.none)
  | l :: rest =>
    match decodeLine l with
    | Option.none => ([], some (lineDecodeFailure parseJson l))
    | some rep =>
      if rep.code ≠ 0 then ([], some (streamErrorFor parseError rep))
      else
        match rep.data with
        | Option.none => ([], some (.valueError "got empty data from plugin daemon"))
        | some d =>
          let (items, err) := decodeStreamLines decodeLine parseError parseJson rest
          (d :: items, err)

/-- `_request_with_plugin_daemon_response_stream`, end to end: the
`_stream_request` generator feeding the per-line decode loop.  An error
from the stream opening is raised before anything is yielded. -/
def requestWithPluginDaemonResponseStream {α : Type}
    (decodeLine : String → Option (Envelope α))
    (parseError : String → Option PDErrorPayload)
    (parseJson : String → Option PyVal)
    (t : Except TransportError StreamResponse) : List α × Option ClientError :=
  match streamRequest t with
  | .error e => ([], some e)
  | .ok lines => decodeStreamLines decodeLine parseError parseJson lines

/-! ### `install_from_identifiers` (impl/plugin.py) -/

/-- The HTTP request an operation would issue, as built at the call site
of `_request_with_plugin_daemon_response`. -/
structure OutgoingRequest where
  method : String
  path : String
  body : PyVal
  headers : List (String × String)

/-- Whether a value is a Python dict (`isinstance(meta, dict)`). -/
def isDict : PyVal → Bool
  | .dict _ => true
  | _ => false

/-- The local-validation stage of
`DifyPluginClient.install_from_identifiers`: the three guards run in
order before the network call; only when all pass is the outgoing request
constructed (so a validation error, by construction, happens before any
HTTP traffic).  The subsequent network exchange is not modelled here. -/
def installFromIdentifiers (tenantId : String) (identifiers : List String)
    (source : String) (metas : List PyVal) : Except ClientError OutgoingRequest :=
  if identifiers.isEmpty then .error (.valueError "identifiers must be provided")
  else if metas.length ≠ identifiers.length then
    .error (.valueError "metas length must match identifiers")
  else if !(metas.all isDict) then
    .error (.valueError "metas must be a list of dictionaries")
  else
    .ok
      { method := "POST"
        path := "plugin/" ++ tenantId ++ "/management/install/identifiers"
        body := .dict
          [("plugin_unique_identifiers", .list (identifiers.map PyVal.str)),
           ("source", .str source),
           ("metas", .list metas)]
        headers := [("Content-Type", "application/json")] }

/-! ### In-document `$ref` resolution (`resolve_dify_schema_refs`,
impl/plugin.py).  The Python `_resolve` recursion has no termination
guarantee (a self-referential definition loops forever), so the embedding
takes an explicit fuel parameter: `none` means the recursion was still
running when the fuel ran out, and divergence of the source is the
statement that every fuel amount returns `none`. -/

/-- Whether `pattern` is a leading subsequence of `target`. -/
def leadsWith : List Char → List Char → Bool
  | [], _ => true
  | _ :: _, [] => false
  | p :: ps, c :: cs => p = c && leadsWith ps cs

/-- `ref.rsplit("/", 1)[-1]`: everything after the last slash. -/
def lastSlashSegment (s : String) : String :=
  ((splitOnChar '/' s.toList).getLastD []).asString

/-- The definition key of a `$ref` string of the supported forms
`#/$defs/<name>` / `#/definitions/<name>`, or `none` when the string has
neither shape. -/
def refNameOf (r : String) : Option String :=
  if leadsWith "#/$defs/".toList r.toList ∨ leadsWith "#/definitions/".toList r.toList then
    some (lastSlashSegment r)
  else Option.none

/-- The resolvable `$ref` key of a dict node, when
`node.get("$ref")` is a string of a supported shape. -/
def refKey (fields : List (String × PyVal)) : Option String :=
  match dictGet fields "$ref" with
  | some (.str r) => refNameOf r
  | _ => Option.none

/-- `definitions = schema.get("$defs") or schema.get("definitions") or {}`
(Python `or` takes the first truthy operand, so an empty `$defs` dict
falls through to `definitions`). -/
def schemaDefinitions (schema : PyVal) : PyVal :=
  match schema with
  | .dict fs =>
    let a := pyGet fs "$defs"
    if pyTruthy a then a
    else
      let b := pyGet fs "definitions"
      if pyTruthy b then b else .dict []
  | _ => .dict []

/-- `definitions.get(key)`.  A non-dict truthy `$defs` value would crash
the source with `AttributeError` here; it cannot arise from a parsed JSON
schema and is modelled as a failed lookup. -/
def definitionsGet (defs : PyVal) (k : String) : Option PyVal :=
  match defs with
  | .dict ds => dictGet ds k
  | _ => Option.none

/-- The node's fields without its `$ref` entry
(`{k: v for k, v in node.items() if k != "$ref"}`). -/
def stripRef (fields : List (String × PyVal)) : List (String × PyVal) :=
  fields.filter (fun kv => kv.1 ≠ "$ref")

/-- Python `{**a, **b}`: the keys of `a` in order, each taking `b`'s value
when `b` also binds it, followed by the keys of `b` not in `a`, in order. -/
def dictUnion (a b : List (String × PyVal)) : List (String × PyVal) :=
  a.map (fun kv => (kv.1, (dictGet b kv.1).getD kv.2))
    ++ b.filter (fun kv => (dictGet a kv.1).isNone)

/-- The fields of a resolved dict value.  `_resolve` only ever merges a
resolved definition, which is always a dict. -/
def asFields : PyVal → List (String × PyVal)
  | .dict fs => fs
  | _ => []

/-- Option-propagating resolution of every field value. -/
def optMapFields (f : PyVal → Option PyVal) :
    List (String × PyVal) → Option (List (String × PyVal))
  | [] => some []
  | (k, v) :: rest => do
    let v2 ← f v
    let rest2 ← optMapFields f rest
    some ((k, v2) :: rest2)

/-- Option-propagating resolution of every list item. -/
def optMapItems (f : PyVal → Option PyVal) : List PyVal → Option (List PyVal)
  | [] => some []
  | v :: rest => do
    let v2 ← f v
    let rest2 ← optMapItems f rest
    some (v2 :: rest2)

/-- The inner `_resolve` of `resolve_dify_schema_refs`, with fuel.  A dict
node whose `$ref` names an existing dict definition is replaced by the
recursively resolved definition merged under the node's remaining keys
(local keys win); a `$ref` to a missing or non-dict definition returns the
node unchanged (children included); every other dict or list resolves its
children; leaves pass through. -/
def resolveNode (defs : PyVal) : Nat → PyVal → Option PyVal
  | 0, _ => Option.none
  | fuel + 1, node =>
    match node with
    | .dict fs =>
      match refKey fs with
      | some key =>
        match definitionsGet defs key with
        | some (.dict target) =>
          (resolveNode defs fuel (.dict target)).map
            (fun rt => PyVal.dict (dictUnion (asFields rt) (stripRef fs)))
        | _ => some (.dict fs)
      | Option.none =>
        (optMapFields (fun v => resolveNode defs fuel v) fs).map PyVal.dict
    | .list xs => (optMapItems (fun v => resolveNode defs fuel v) xs).map PyVal.list
    | v => some v

/-- `resolve_dify_schema_refs(schema)`: non-dict input passes through;
otherwise the whole document is resolved against its own top-level
definitions map. -/
def resolveDifySchemaRefs (fuel : Nat) (schema : PyVal) : Option PyVal :=
  match schema with
  | .dict _ => resolveNode (schemaDefinitions schema) fuel schema
  | v => some v

/-! ## Claims -/

/-- C4: provider-reference parsing.  For an input with exactly 2
slash-separated segments the parse returns the whole string as
`plugin_id` and the second segment as `provider_name`; for exactly 3
segments it returns the first two segments joined by `/` and the third
segment; for every other segment count it fails with the
`ValueError` ("Invalid provider format ..."). -/
theorem parse_tool_provider_id_spec (s : String) :
    ((pySplitSlash s).length = 2 →
      parseToolProviderId s = .ok (s, (pySplitSlash s).getD 1 "")) ∧
    ((pySplitSlash s).length = 3 →
      parseToolProviderId s =
        .ok ((pySplitSlash s).getD 0 "" ++ "/" ++ (pySplitSlash s).getD 1 "",
             (pySplitSlash s).getD 2 "")) ∧
    ((pySplitSlash s).length ≠ 2 → (pySplitSlash s).length ≠ 3 →
      parseToolProviderId s =
        .error (.valueError ("Invalid provider format. Expected 'plugin_id/provider_name' or "
          ++ "'organization/plugin_name/provider_name'."))) := by
  refine ⟨fun h2 => ?_, fun h3 => ?_, fun h2 h3 => ?_⟩
  · simp [parseToolProviderId, h2]
  · simp [parseToolProviderId, h3]
  · simp [parseToolProviderId, if_neg h2, if_neg h3]

/-- Witness for C4 at the four concrete references named by the spec. -/
theorem parse_tool_provider_id_spec_witness :
    parseToolProviderId "abc/def" = .ok ("abc/def", "def") ∧
    parseToolProviderId "org/plugin/provider" = .ok ("org/plugin", "provider") ∧
    parseToolProviderId "single" =
      .error (.valueError ("Invalid provider format. Expected 'plugin_id/provider_name' or "
        ++ "'organization/plugin_name/provider_name'.")) ∧
    parseToolProviderId "a/b/c/d" =
      .error (.valueError ("Invalid provider format. Expected 'plugin_id/provider_name' or "
        ++ "'organization/plugin_name/provider_name'.")) := by
  refine ⟨?_, ?_, ?_, ?_⟩
  · exact (parse_tool_provider_id_spec "abc/def").1 rfl
  · exact (parse_tool_provider_id_spec "org/plugin/provider").2.1 rfl
  · exact (parse_tool_provider_id_spec "single").2.2 (by decide) (by decide)
  · exact (parse_tool_provider_id_spec "a/b/c/d").2.2 (by decide) (by decide)

/-- C6: boolean parameter casting.  A missing value yields `false`; a
string whose lowercase form is in `{"true","yes","y","1"}` yields `true`
and one in `{"false","no","n","0"}` yields `false`; every other string and
every non-string, non-missing value is coerced by Python truthiness — in
particular `"Yes"` casts to `true` and `"maybe"` casts to `true`. -/
theorem cast_boolean_spec (p : ToolParameter) (hp : p.type = .boolean) :
    castToolParameterValue p .none = .ok (.bool false) ∧
    (∀ s, (strLower s = "true" ∨ strLower s = "yes" ∨ strLower s = "y" ∨ strLower s = "1") →
      castToolParameterValue p (.str s) = .ok (.bool true)) ∧
    (∀ s, (strLower s = "false" ∨ strLower s = "no" ∨ strLower s = "n" ∨ strLower s = "0") →
      castToolParameterValue p (.str s) = .ok (.bool false)) ∧
    (∀ s, ¬(strLower s = "true" ∨ strLower s = "yes" ∨ strLower s = "y" ∨ strLower s = "1") →
      ¬(strLower s = "false" ∨ strLower s = "no" ∨ strLower s = "n" ∨ strLower s = "0") →
      castToolParameterValue p (.str s) = .ok (.bool (pyTruthy (.str s)))) ∧
    (∀ v, v ≠ .none → (∀ s, v ≠ .str s) →
      castToolParameterValue p v = .ok (.bool (pyTruthy v))) ∧
    castToolParameterValue p (.str "Yes") = .ok (.bool true) ∧
    castToolParameterValue p (.str "maybe") = .ok (.bool true) := by
  have hb : ∀ v, castToolParameterValue p v = castBooleanParameter v := by
    intro v
    simp only [castToolParameterValue, hp]
  have base : ∀ s, castBooleanParameter (.str s) =
      (if strLower s = "true" ∨ strLower s = "yes" ∨ strLower s = "y" ∨ strLower s = "1" then
         .ok (.bool true)
       else if strLower s = "false" ∨ strLower s = "no" ∨ strLower s = "n" ∨ strLower s = "0" then
         .ok (.bool false)
       else .ok (.bool (pyTruthy (.str s)))) := fun s => rfl
  refine ⟨by rw [hb]; rfl, fun s hs => ?_, fun s hs => ?_,
    fun s h1 h2 => ?_, fun v hv hvs => ?_, ?_, ?_⟩
  · rw [hb, base]; simp [hs]
  · rw [hb, base]
    rcases hs with h | h | h | h <;> simp [h]
  · rw [hb, base]; simp [h1, h2]
  · rw [hb]
    cases v with
    | none => exact absurd rfl hv
    | str s => exact absurd rfl (hvs s)
    | bool b => rfl
    | int i => rfl
    | float f => rfl
    | list xs => rfl
    | dict fs => rfl
  · rw [hb]; rfl
  · rw [hb]; rfl

/-- Witness for C6: the boolean cast evaluated on a missing value, on
`"Yes"`, on `"maybe"`, on `"FALSE"`, and on the non-string `7`. -/
theorem cast_boolean_spec_witness :
    castToolParameterValue ⟨"b", .boolean, false, Option.none⟩ .none = .ok (.bool false) ∧
    castToolParameterValue ⟨"b", .boolean, false, Option.none⟩ (.str "Yes") = .ok (.bool true) ∧
    castToolParameterValue ⟨"b", .boolean, false, Option.none⟩ (.str "maybe") = .ok (.bool true) ∧
    castToolParameterValue ⟨"b", .boolean, false, Option.none⟩ (.str "FALSE") = .ok (.bool false) ∧
    castToolParameterValue ⟨"b", .boolean, false, Option.none⟩ (.int 7) = .ok (.bool true) := by
  have h := cast_boolean_spec ⟨"b", .boolean, false, Option.none⟩ rfl
  refine ⟨h.1, h.2.2.2.2.2.1, h.2.2.2.2.2.2, ?_, ?_⟩
  · exact h.2.2.1 "FALSE" (Or.inl rfl)
  · exact h.2.2.2.2.1 (.int 7) (by simp) (fun s => by simp)

/-- C7: number parameter casting.  A missing value yields integer `0`;
`int` and `float` values pass through unchanged; a non-empty string
containing `.` is parsed by `float()` and any other non-empty string by
`int()` (`"3.5"` gives the float `3.5`, `"3"` gives the integer `3`), a
failed parse raising the validation error; the empty string, and values
that are neither numeric nor strings (lists, dicts), raise the validation
error. -/
theorem cast_number_spec (p : ToolParameter) (hp : p.type = .number) :
    castToolParameterValue p .none = .ok (.int 0) ∧
    (∀ i, castToolParameterValue p (.int i) = .ok (.int i)) ∧
    (∀ f, castToolParameterValue p (.float f) = .ok (.float f)) ∧
    (∀ s, s ≠ "" → containsChar '.' s = true →
      castToolParameterValue p (.str s) =
        (match pyParseFloat s with
         | some q => .ok (.float q)
         | Option.none =>
           .error (.valueError ("tool parameter " ++ p.name ++ " expects a number")))) ∧
    (∀ s, s ≠ "" → containsChar '.' s = false →
      castToolParameterValue p (.str s) =
        (match pyParseInt s with
         | some i => .ok (.int i)
         | Option.none =>
           .error (.valueError ("tool parameter " ++ p.name ++ " expects a number")))) ∧
    castToolParameterValue p (.str "3.5") = .ok (.float ⟨35, 1⟩) ∧
    castToolParameterValue p (.str "3") = .ok (.int 3) ∧
    castToolParameterValue p (.str "abc") =
      .error (.valueError ("tool parameter " ++ p.name ++ " expects a number")) ∧
    castToolParameterValue p (.str "") =
      .error (.valueError ("tool parameter " ++ p.name ++ " expects a number")) ∧
    (∀ xs, castToolParameterValue p (.list xs) =
      .error (.valueError ("tool parameter " ++ p.name ++ " expects a number"))) ∧
    (∀ fs, castToolParameterValue p (.dict fs) =
      .error (.valueError ("tool parameter " ++ p.name ++ " expects a number"))) := by
  have hb : ∀ v, castToolParameterValue p v = castNumberParameter p v := by
    intro v
    simp only [castToolParameterValue, hp]
  refine ⟨by rw [hb]; rfl, fun i => by rw [hb]; rfl, fun f => by rw [hb]; rfl,
    fun s hs hdot => ?_, fun s hs hdot => ?_, ?_, ?_, ?_, by rw [hb]; rfl,
    fun xs => by rw [hb]; rfl, fun fs => by rw [hb]; rfl⟩
  · rw [hb]
    simp [castNumberParameter, hs, hdot]
  · rw [hb]
    simp [castNumberParameter, hs, hdot]
  · rw [hb]; rfl
  · rw [hb]; rfl
  · rw [hb]; rfl

/-- Witness for C7: the number cast evaluated at a missing value, the
integer `4`, the float `2.5`, and the strings `"3.5"`, `"3"`, `"abc"`. -/
theorem cast_number_spec_witness :
    castToolParameterValue ⟨"n", .number, false, Option.none⟩ .none = .ok (.int 0) ∧
    castToolParameterValue ⟨"n", .number, false, Option.none⟩ (.int 4) = .ok (.int 4) ∧
    castToolParameterValue ⟨"n", .number, false, Option.none⟩ (.float ⟨25, 1⟩)
      = .ok (.float ⟨25, 1⟩) ∧
    castToolParameterValue ⟨"n", .number, false, Option.none⟩ (.str "3.5")
      = .ok (.float ⟨35, 1⟩) ∧
    castToolParameterValue ⟨"n", .number, false, Option.none⟩ (.str "3") = .ok (.int 3) ∧
    castToolParameterValue ⟨"n", .number, false, Option.none⟩ (.str "abc")
      = .error (.valueError "tool parameter n expects a number") ∧
    castToolParameterValue ⟨"n", .number, false, Option.none⟩ (.list [])
      = .error (.valueError "tool parameter n expects a number") := by
  have h := cast_number_spec ⟨"n", .number, false, Option.none⟩ rfl
  exact ⟨h.1, h.2.1 4, h.2.2.1 ⟨25, 1⟩, h.2.2.2.2.2.1, h.2.2.2.2.2.2.1,
    h.2.2.2.2.2.2.2.1, h.2.2.2.2.2.2.2.2.2.1 []⟩

/-- C5 counterexample: the claim says a non-string value whose *string
form* is listed in the options passes the membership check and is returned
as that string.  Concretely, for a `select` parameter with options
`["1"]` and the supplied integer `1`: the string form `"1"` is a member of
the options (so the claim requires success with `"1"`), but the source
compares the raw value — `1 not in ["1"]` — and raises the validation
error instead. -/
theorem cast_select_stringified_counterexample :
    pyStr (.int 1) = "1" ∧
    ([PyVal.str "1"].any fun o => pyEq (.str (pyStr (.int 1))) o) = true ∧
    castToolParameterValue ⟨"p", .select, true, some [.str "1"]⟩ (.int 1)
      = .error (.valueError "tool parameter p value 1 not in options ['1']") :=
  ⟨rfl, rfl, rfl⟩

/-- C5 (amended): select parameter casting.  A missing value with
`required=true` raises the validation error and with `required=false`
yields the empty string; when the declaration carries a non-empty option
list, the *raw* supplied value (compared to the options by Python `==`,
not its string form) must be a member of that list or the cast fails with
a validation error, and a member value is returned stringified when it is
not already a string; with no (or an empty) option list every present
value is returned stringified. -/
theorem cast_select_spec (p : ToolParameter) (hp : p.type = .select) :
    (p.required = true →
      castToolParameterValue p .none =
        .error (.valueError ("tool parameter " ++ p.name ++ " is required"))) ∧
    (p.required = false → castToolParameterValue p .none = .ok (.str "")) ∧
    (∀ v opts, v ≠ .none → p.options = some opts → opts ≠ [] →
      castToolParameterValue p v =
        (if opts.any (fun o => pyEq v o) then .ok (stringifyIfNeeded v)
         else
           .error (.valueError ("tool parameter " ++ p.name ++ " value "
             ++ pyStr v ++ " not in options " ++ pyStr (.list opts))))) ∧
    (∀ v, v ≠ .none → p.options = Option.none →
      castToolParameterValue p v = .ok (stringifyIfNeeded v)) ∧
    (∀ v, v ≠ .none → p.options = some [] →
      castToolParameterValue p v = .ok (stringifyIfNeeded v)) := by
  have hb : ∀ v, castToolParameterValue p v = castSelectParameter p v := by
    intro v
    simp only [castToolParameterValue, hp]
  have hnotnone : ∀ v, v ≠ PyVal.none →
      castSelectParameter p v =
        (match p.options with
         | some opts =>
           if !opts.isEmpty then
             if opts.any (fun o => pyEq v o) then .ok (stringifyIfNeeded v)
             else
               .error (.valueError ("tool parameter " ++ p.name ++ " value "
                 ++ pyStr v ++ " not in options " ++ pyStr (.list opts)))
           else .ok (stringifyIfNeeded v)
         | Option.none => .ok (stringifyIfNeeded v)) := by
    intro v hv
    cases v with
    | none => exact absurd rfl hv
    | bool b => rfl
    | int i => rfl
    | float f => rfl
    | str s => rfl
    | list xs => rfl
    | dict fs => rfl
  refine ⟨fun hreq => ?_, fun hreq => ?_, fun v opts hv hopts hne => ?_,
    fun v hv hopts => ?_, fun v hv hopts => ?_⟩
  · rw [hb]
    simp [castSelectParameter, hreq]
  · rw [hb]
    simp [castSelectParameter, hreq]
  · rw [hb, hnotnone v hv, hopts]
    simp only [Bool.not_eq_eq_eq_not, Bool.not_true]
    rw [if_pos]
    simp [List.isEmpty_iff, hne]
  · rw [hb, hnotnone v hv, hopts]
  · rw [hb, hnotnone v hv, hopts]
    rfl

/-- Witness for C5 (amended): a `select` parameter exercised on a missing
required value, a missing optional value, a raw-member integer (returned
stringified), and the raw non-member integer whose string form is listed. -/
theorem cast_select_spec_witness :
    castToolParameterValue ⟨"p", .select, true, some [.str "1"]⟩ .none
      = .error (.valueError "tool parameter p is required") ∧
    castToolParameterValue ⟨"p", .select, false, some [.str "1"]⟩ .none = .ok (.str "") ∧
    castToolParameterValue ⟨"p", .select, true, some [.int 1, .int 2]⟩ (.int 1)
      = .ok (.str "1") ∧
    castToolParameterValue ⟨"p", .select, true, some [.str "1"]⟩ (.int 1)
      = .error (.valueError "tool parameter p value 1 not in options ['1']") := by
  refine ⟨?_, ?_, ?_, ?_⟩
  · exact (cast_select_spec ⟨"p", .select, true, some [.str "1"]⟩ rfl).1 rfl
  · exact (cast_select_spec ⟨"p", .select, false, some [.str "1"]⟩ rfl).2.1 rfl
  · exact (cast_select_spec ⟨"p", .select, true, some [.int 1, .int 2]⟩ rfl).2.2.1
      (.int 1) [.int 1, .int 2] (by simp) rfl (by simp)
  · exact (cast_select_spec ⟨"p", .select, true, some [.str "1"]⟩ rfl).2.2.1
      (.int 1) [.str "1"] (by simp) rfl (by simp)

/-- C9: `install_from_identifiers` validates locally before any network
traffic: an empty identifier list, a `metas`/`identifiers` length
mismatch, or a non-dict `metas` entry each produce a `ValueError` — and by
construction of the embedding a `ValueError` result means the outgoing
request was never built, so no HTTP call happens.  Only inputs passing
all three guards produce an outgoing request. -/
theorem install_from_identifiers_spec (tenantId source : String)
    (ids : List String) (metas : List PyVal) :
    (ids = [] →
      installFromIdentifiers tenantId ids source metas =
        .error (.valueError "identifiers must be provided")) ∧
    (ids ≠ [] → metas.length ≠ ids.length →
      installFromIdentifiers tenantId ids source metas =
        .error (.valueError "metas length must match identifiers")) ∧
    (ids ≠ [] → metas.length = ids.length → metas.all isDict = false →
      installFromIdentifiers tenantId ids source metas =
        .error (.valueError "metas must be a list of dictionaries")) ∧
    (ids ≠ [] → metas.length = ids.length → metas.all isDict = true →
      ∃ req, installFromIdentifiers tenantId ids source metas = .ok req) := by
  refine ⟨fun h => ?_, fun h hm => ?_, fun h hm hd => ?_, fun h hm hd => ?_⟩
  · simp [installFromIdentifiers, h]
  · simp [installFromIdentifiers, List.isEmpty_iff, h, hm]
  · simp [installFromIdentifiers, List.isEmpty_iff, h, hm, hd]
  · refine ⟨{ method := "POST"
              path := "plugin/" ++ tenantId ++ "/management/install/identifiers"
              body := .dict
                [("plugin_unique_identifiers", .list (ids.map PyVal.str)),
                 ("source", .str source),
                 ("metas", .list metas)]
              headers := [("Content-Type", "application/json")] }, ?_⟩
    simp only [installFromIdentifiers, hm, hd]
    rw [if_neg (by simp [List.isEmpty_iff, h]), if_neg (by simp), if_neg (by simp)]

/-- Witness for C9, including the spec scenario: two identifiers with a
single (empty-dict) meta fail with the length-mismatch validation error. -/
theorem install_from_identifiers_spec_witness :
    installFromIdentifiers "t1" ["id1", "id2"] "marketplace" [.dict []] =
      .error (.valueError "metas length must match identifiers") ∧
    installFromIdentifiers "t1" [] "marketplace" [] =
      .error (.valueError "identifiers must be provided") ∧
    installFromIdentifiers "t1" ["id1"] "marketplace" [.str "x"] =
      .error (.valueError "metas must be a list of dictionaries") ∧
    (∃ req, installFromIdentifiers "t1" ["id1"] "marketplace" [.dict []] = .ok req) := by
  refine ⟨?_, ?_, ?_, ?_⟩
  · exact (install_from_identifiers_spec "t1" "marketplace" ["id1", "id2"] [.dict []]).2.1
      (by simp) (by simp)
  · exact (install_from_identifiers_spec "t1" "marketplace" [] []).1 rfl
  · exact (install_from_identifiers_spec "t1" "marketplace" ["id1"] [.str "x"]).2.2.1
      (by simp) (by simp) rfl
  · exact (install_from_identifiers_spec "t1" "marketplace" ["id1"] [.dict []]).2.2.2
      (by simp) (by simp) rfl

/-- C2: envelope unwrap.  For an envelope with `code == 0` and data
present, `unwrap` returns exactly that data; for `code != 0` it always
produces an error (never a value), whatever the message parse does; for
`code == 0` with absent data it produces the generic empty-data
`ValueError`. -/
theorem unwrap_envelope_spec {α : Type}
    (parseError : String → Option PDErrorPayload) (rep : Envelope α) :
    (∀ d, rep.code = 0 → rep.data = some d →
      unwrapEnvelope parseError rep = .ok d) ∧
    (rep.code ≠ 0 → ∃ e, unwrapEnvelope parseError rep = .error e) ∧
    (rep.code = 0 → rep.data = Option.none →
      unwrapEnvelope parseError rep = .error (.valueError "got empty data from plugin daemon")) := by
  refine ⟨fun d hc hd => ?_, fun hc => ?_, fun hc hd => ?_⟩
  · simp [unwrapEnvelope, hc, hd]
  · simp only [unwrapEnvelope, if_pos hc]
    cases parseError rep.message with
    | none => exact ⟨_, rfl⟩
    | some err => exact ⟨_, rfl⟩
  · simp [unwrapEnvelope, hc, hd]

/-- Witness for C2 at three concrete envelopes over `Nat` data: success
with data `42`, failure for `code = 7`, and the empty-data failure. -/
theorem unwrap_envelope_spec_witness :
    unwrapEnvelope (fun _ => Option.none) (⟨0, "ok", some 42⟩ : Envelope Nat) = .ok 42 ∧
    (∃ e, unwrapEnvelope (fun _ => Option.none) (⟨7, "bad", some 42⟩ : Envelope Nat)
      = .error e) ∧
    unwrapEnvelope (fun _ => Option.none) (⟨0, "ok", Option.none⟩ : Envelope Nat)
      = .error (.valueError "got empty data from plugin daemon") := by
  refine ⟨?_, ?_, ?_⟩
  · exact (unwrap_envelope_spec (fun _ => Option.none) ⟨0, "ok", some 42⟩).1 42 rfl rfl
  · exact (unwrap_envelope_spec (fun _ => Option.none) ⟨7, "bad", some 42⟩).2.1 (by decide)
  · exact (unwrap_envelope_spec (fun _ => Option.none) ⟨0, "ok", Option.none⟩).2.2 rfl rfl

/-- A streamed line is "good" when it decodes as an envelope with
`code == 0` and present data — exactly the lines that yield an item. -/
def goodLine {α : Type} (decodeLine : String → Option (Envelope α)) (l : String) : Bool :=
  match decodeLine l with
  | some rep => rep.code == 0 && rep.data.isSome
  | Option.none => false

/-- The data carried by a streamed line, when its envelope has any. -/
def lineData {α : Type} (decodeLine : String → Option (Envelope α)) (l : String) :
    Option α :=
  (decodeLine l).bind Envelope.data

theorem decode_stream_lines_prefix {α : Type}
    (decodeLine : String → Option (Envelope α))
    (parseError : String → Option PDErrorPayload)
    (parseJson : String → Option PyVal) (lines : List String) :
    (decodeStreamLines decodeLine parseError parseJson lines).1
      = (lines.takeWhile (goodLine decodeLine)).filterMap (lineData decodeLine) ∧
    (decodeStreamLines decodeLine parseError parseJson lines).1.length
      = (lines.takeWhile (goodLine decodeLine)).length ∧
    ((decodeStreamLines decodeLine parseError parseJson lines).2 = Option.none ↔
      ∀ l ∈ lines, goodLine decodeLine l = true) := by
  induction lines with
  | nil => exact ⟨rfl, rfl, by simp [decodeStreamLines]⟩
  | cons l rest ih =>
    cases hdec : decodeLine l with
    | none =>
      have hg : goodLine decodeLine l = false := by simp [goodLine, hdec]
      refine ⟨?_, ?_, ?_⟩ <;>
        simp [decodeStreamLines, hdec, hg, List.takeWhile_cons]
    | some rep =>
      by_cases hc : rep.code = 0
      · cases hd : rep.data with
        | none =>
          have hg : goodLine decodeLine l = false := by simp [goodLine, hdec, hd]
          refine ⟨?_, ?_, ?_⟩ <;>
            simp [decodeStreamLines, hdec, hc, hd, hg, List.takeWhile_cons]
        | some d =>
          have hg : goodLine decodeLine l = true := by simp [goodLine, hdec, hc, hd]
          have hl : lineData decodeLine l = some d := by simp [lineData, hdec, hd]
          refine ⟨?_, ?_, ?_⟩
          · simp [decodeStreamLines, hdec, hc, hd, hg, hl, List.takeWhile_cons, ih.1]
          · simp [decodeStreamLines, hdec, hc, hd, hg, List.takeWhile_cons, ih.2.1]
          · simp [decodeStreamLines, hdec, hc, hd, hg, List.takeWhile_cons, ih.2.2]
      · have hg : goodLine decodeLine l = false := by simp [goodLine, hdec, hc]
        refine ⟨?_, ?_, ?_⟩ <;>
          simp [decodeStreamLines, hdec, hc, hg, List.takeWhile_cons]

/-- C3: streaming decode yields exactly the good prefix.  Over the
non-blank payload lines (blank lines are dropped and `data:` markers
stripped by the transport), the items yielded are the data of the longest
prefix of lines that decode as envelopes with `code == 0` and present
data; their number equals that prefix's length; the generator finishes
without error exactly when every line is good, and the first bad line
(undecodable, `code != 0`, or missing data) raises, after which no item
from any later line is yielded. -/
theorem stream_decode_prefix_spec {α : Type}
    (decodeLine : String → Option (Envelope α))
    (parseError : String → Option PDErrorPayload)
    (parseJson : String → Option PyVal) (r : StreamResponse)
    (hstatus : r.status < 400) :
    (requestWithPluginDaemonResponseStream decodeLine parseError parseJson (.ok r)).1
      = ((r.lines.filterMap filterRawLine).takeWhile (goodLine decodeLine)).filterMap
          (lineData decodeLine) ∧
    (requestWithPluginDaemonResponseStream decodeLine parseError parseJson (.ok r)).1.length
      = ((r.lines.filterMap filterRawLine).takeWhile (goodLine decodeLine)).length ∧
    ((requestWithPluginDaemonResponseStream decodeLine parseError parseJson (.ok r)).2
        = Option.none ↔
      ∀ l ∈ r.lines.filterMap filterRawLine, goodLine decodeLine l = true) := by
  have hopen : requestWithPluginDaemonResponseStream decodeLine parseError parseJson (.ok r)
      = decodeStreamLines decodeLine parseError parseJson (r.lines.filterMap filterRawLine) := by
    simp [requestWithPluginDaemonResponseStream, streamRequest, Nat.not_le.mpr hstatus]
  rw [hopen]
  exact decode_stream_lines_prefix decodeLine parseError parseJson _

/-- Witness for C3: a concrete stream of a blank line, a `data:`-prefixed
good line, a bare good line, a `code != 0` line and a trailing good line
yields exactly the two items of the good prefix and stops with an error. -/
theorem stream_decode_prefix_spec_witness :
    (requestWithPluginDaemonResponseStream
        (fun l => if l = "g" then some (⟨0, "ok", some 1⟩ : Envelope Nat)
                  else if l = "b" then some ⟨5, "e", Option.none⟩ else Option.none)
        (fun _ => Option.none) (fun _ => Option.none)
        (.ok ⟨200, ["", "data: g", "g", "b", "g"]⟩)).1 = [1, 1] ∧
    (requestWithPluginDaemonResponseStream
        (fun l => if l = "g" then some (⟨0, "ok", some 1⟩ : Envelope Nat)
                  else if l = "b" then some ⟨5, "e", Option.none⟩ else Option.none)
        (fun _ => Option.none) (fun _ => Option.none)
        (.ok ⟨200, ["", "data: g", "g", "b", "g"]⟩)).1.length = 2 := by
  have h := stream_decode_prefix_spec
    (fun l => if l = "g" then some (⟨0, "ok", some 1⟩ : Envelope Nat)
              else if l = "b" then some ⟨5, "e", Option.none⟩ else Option.none)
    (fun _ => Option.none) (fun _ => Option.none)
    ⟨200, ["", "data: g", "g", "b", "g"]⟩ (by decide)
  exact ⟨h.1, h.2.1⟩

/-- Whether a call outcome is the daemon-unreachable failure
(`PluginDaemonInnerError` with code `-500`). -/
def isDaemonUnreachable {α : Type} : Except ClientError α → Bool
  | .error (.daemonInnerError c _) => c == -500
  | _ => false

/-- C1 counterexample: a single-shot envelope operation hit by a
transport failure.  `_request` does raise `PluginDaemonInnerError(-500)`,
but `_request_with_plugin_daemon_response` catches it in its blanket
`except Exception` clause and re-raises
`ValueError("Failed to request plugin daemon, url: ...")` — so the call
fails with a generic value error, not with the daemon-unreachable kind the
claim requires. -/
theorem transport_failure_wrapped_counterexample :
    requestWithPluginDaemonResponse (α := Bool) "plugin/t1/management/fetch/identifier"
        (fun _ => Option.none) (fun _ => Option.none) (.error .connect)
      = .error (.valueError
          "Failed to request plugin daemon, url: plugin/t1/management/fetch/identifier") ∧
    isDaemonUnreachable
      (requestWithPluginDaemonResponse (α := Bool) "plugin/t1/management/fetch/identifier"
        (fun _ => Option.none) (fun _ => Option.none) (.error .connect)) = false :=
  ⟨rfl, rfl⟩

/-- C1 (amended): the blanket transport translation happens inside
`_request`/`_stream_request`, which raise `PluginDaemonInnerError` with
code `-500` on any `httpx.RequestError`; streaming operations surface that
error unchanged to the caller, but single-shot operations built on
`_request_with_plugin_daemon_response` catch it in their `except
Exception` clause and re-raise it wrapped as the generic
`ValueError("Failed to request plugin daemon, url: ...")` (chained from
the original), not as the daemon-unreachable error kind. -/
theorem transport_failure_translation_spec {α : Type} (path : String)
    (decodeEnvelope : String → Option (Envelope α))
    (decodeLine : String → Option (Envelope α))
    (parseError : String → Option PDErrorPayload)
    (parseJson : String → Option PyVal) (err : TransportError) :
    requestRaw (.error err)
      = .error (.daemonInnerError (-500) "Request to Plugin Daemon Service failed") ∧
    streamRequest (.error err)
      = .error (.daemonInnerError (-500) "Request to Plugin Daemon Service failed") ∧
    requestWithPluginDaemonResponseStream decodeLine parseError parseJson (.error err)
      = ([], some (.daemonInnerError (-500) "Request to Plugin Daemon Service failed")) ∧
    requestWithPluginDaemonResponse path decodeEnvelope parseError (.error err)
      = .error (.valueError ("Failed to request plugin daemon, url: " ++ path)) :=
  ⟨rfl, rfl, rfl, rfl⟩

theorem dictGet_append (xs ys : List (String × PyVal)) (k : String) :
    dictGet (xs ++ ys) k =
      (match dictGet xs k with
       | some v => some v
       | Option.none => dictGet ys k) := by
  induction xs with
  | nil => rfl
  | cons kv rest ih =>
    obtain ⟨k1, v⟩ := kv
    by_cases h : k1 = k
    · simp [dictGet, h]
    · simp [dictGet, h, ih]

theorem dictGet_override (a b : List (String × PyVal)) (k : String) :
    dictGet (a.map fun kv => (kv.1, (dictGet b kv.1).getD kv.2)) k
      = (dictGet a k).map fun v => (dictGet b k).getD v := by
  induction a with
  | nil => rfl
  | cons kv rest ih =>
    obtain ⟨k1, v⟩ := kv
    by_cases h : k1 = k
    · subst h; simp [dictGet]
    · simp [dictGet, h, ih]

theorem dictGet_filter_not_in (b a : List (String × PyVal)) (k : String) :
    dictGet (b.filter fun kv => (dictGet a kv.1).isNone) k
      = if (dictGet a k).isNone then dictGet b k else Option.none := by
  induction b with
  | nil => simp [dictGet]
  | cons kv rest ih =>
    obtain ⟨k1, v⟩ := kv
    by_cases h : k1 = k
    · subst h
      by_cases hn : (dictGet a k1).isNone <;>
        simp [List.filter_cons, dictGet, hn, ih]
    · by_cases hn : (dictGet a k1).isNone <;>
        simp [List.filter_cons, dictGet, h, hn, ih]

/-- Lookup in the Python merge `{**a, **b}`: `b`'s binding wins when both
dicts bind the key, otherwise `a`'s binding is used. -/
theorem dictUnion_lookup (a b : List (String × PyVal)) (k : String) :
    dictGet (dictUnion a b) k =
      (match dictGet b k with
       | some v => some v
       | Option.none => dictGet a k) := by
  unfold dictUnion
  rw [dictGet_append, dictGet_override, dictGet_filter_not_in]
  cases ha : dictGet a k with
  | some v => cases hb : dictGet b k <;> simp [ha, hb]
  | none => cases hb : dictGet b k <;> simp [ha, hb]

/-- C8: `$ref` resolution.  A dict node whose `$ref` (of the supported
`#/$defs/<name>` / `#/definitions/<name>` forms) names an existing dict
definition is replaced by the (recursively resolved) definition merged
under the node's remaining sibling keys — and for any key the merged node
binds the sibling's value when the node has one (local wins), otherwise
the resolved definition's value; a `$ref` naming a definition absent from
the document's definitions map leaves the node entirely unchanged rather
than failing the resolution. -/
theorem resolve_ref_spec (defs : PyVal) (fuel : Nat)
    (fs : List (String × PyVal)) (key : String) :
    (∀ tfs, refKey fs = some key → definitionsGet defs key = some (.dict tfs) →
      resolveNode defs (fuel + 1) (.dict fs)
        = (resolveNode defs fuel (.dict tfs)).map
            (fun rt => .dict (dictUnion (asFields rt) (stripRef fs)))) ∧
    (refKey fs = some key → definitionsGet defs key = Option.none →
      resolveNode defs (fuel + 1) (.dict fs) = some (.dict fs)) ∧
    (∀ rfs k, dictGet (dictUnion rfs (stripRef fs)) k =
      (match dictGet (stripRef fs) k with
       | some v => some v
       | Option.none => dictGet rfs k)) := by
  refine ⟨fun tfs href hdef => ?_, fun href hdef => ?_,
    fun rfs k => dictUnion_lookup rfs (stripRef fs) k⟩
  · simp [resolveNode, href, hdef]
  · simp [resolveNode, href, hdef]

/-- Witness for C8 at the spec's sibling-merge example: a node carrying
`$ref = #/$defs/Point` plus a local `description` resolves to the `Point`
definition overridden by the local key, while a `$ref` to the missing
definition `Nope` leaves its node untouched. -/
theorem resolve_ref_spec_witness :
    resolveNode (.dict [("Point", .dict [("properties", .str "P"), ("description", .str "old")])])
        3 (.dict [("$ref", .str "#/$defs/Point"), ("description", .str "loc")])
      = some (.dict [("properties", .str "P"), ("description", .str "loc")]) ∧
    resolveNode (.dict [("Point", .dict [("properties", .str "P"), ("description", .str "old")])])
        1 (.dict [("$ref", .str "#/definitions/Nope"), ("description", .str "loc")])
      = some (.dict [("$ref", .str "#/definitions/Nope"), ("description", .str "loc")]) ∧
    dictGet (dictUnion [("properties", .str "P"), ("description", .str "old")]
        (stripRef [("$ref", .str "#/$defs/Point"), ("description", .str "loc")]))
        "description" = some (.str "loc") := by
  refine ⟨?_, ?_, ?_⟩
  · exact (resolve_ref_spec
      (.dict [("Point", .dict [("properties", .str "P"), ("description", .str "old")])]) 2
      [("$ref", .str "#/$defs/Point"), ("description", .str "loc")] "Point").1
      [("properties", .str "P"), ("description", .str "old")] rfl rfl
  · exact (resolve_ref_spec
      (.dict [("Point", .dict [("properties", .str "P"), ("description", .str "old")])]) 0
      [("$ref", .str "#/definitions/Nope"), ("description", .str "loc")] "Nope").2.1 rfl rfl
  · exact (resolve_ref_spec
      (.dict [("Point", .dict [("properties", .str "P"), ("description", .str "old")])]) 1
      [("$ref", .str "#/$defs/Point"), ("description", .str "loc")] "Point").2.2
      [("properties", .str "P"), ("description", .str "old")] "description"

/-! ### Termination of `_resolve` (C10).  The definition-reference graph
is captured by the ref names occurring in each node; acyclicity is
expressed as a ranking function on definition names that strictly drops
along every reference out of a definition body. -/

mutual
/-- Every definition name referenced by a supported-form `$ref` anywhere
inside a node (over-approximating the refs `_resolve` can follow). -/
def refNamesIn : PyVal → List String
  | .dict fs =>
    (match refKey fs with
     | some k => [k]
     | Option.none => []) ++ refNamesFields fs
  | .list xs => refNamesItems xs
  | _ => []

def refNamesFields : List (String × PyVal) → List String
  | [] => []
  | (_, v) :: rest => refNamesIn v ++ refNamesFields rest

def refNamesItems : List PyVal → List String
  | [] => []
  | v :: rest => refNamesIn v ++ refNamesItems rest
end

mutual
/-- Structural depth of a node: the fuel `_resolve` needs on a
reference-free subtree. -/
def nodeDepth : PyVal → Nat
  | .dict fs => 1 + fieldsDepth fs
  | .list xs => 1 + itemsDepth xs
  | _ => 1

def fieldsDepth : List (String × PyVal) → Nat
  | [] => 0
  | (_, v) :: rest => max (nodeDepth v) (fieldsDepth rest)

def itemsDepth : List PyVal → Nat
  | [] => 0
  | v :: rest => max (nodeDepth v) (itemsDepth rest)
end

/-- The largest rank among a list of definition names. -/
def rankMax (r : String → Nat) : List String → Nat
  | [] => 0
  | j :: rest => max (r j) (rankMax r rest)

/-- The deepest definition body in the definitions map. -/
def defsDepthMax : PyVal → Nat
  | .dict ds => fieldsDepth ds
  | _ => 0

/-- The fuel sufficient to resolve `node` against `defs` under the
ranking `r` (proved in `resolveNode_isSome`). -/
def resolveBound (defs : PyVal) (r : String → Nat) (node : PyVal) : Nat :=
  nodeDepth node + (rankMax r (refNamesIn node) + 1) * (defsDepthMax defs + 1)

theorem nodeDepth_pos (v : PyVal) : 1 ≤ nodeDepth v := by
  cases v <;> simp [nodeDepth]

theorem le_rankMax_of_mem {r : String → Nat} {j : String} :
    ∀ {names : List String}, j ∈ names → r j ≤ rankMax r names := by
  intro names h
  induction names with
  | nil => cases h
  | cons a rest ih =>
    rcases List.mem_cons.mp h with rfl | h2
    · exact le_max_left _ _
    · exact le_trans (ih h2) (le_max_right _ _)

theorem rankMax_lt {r : String → Nat} {c : Nat} :
    ∀ {names : List String}, 1 ≤ c → (∀ j ∈ names, r j < c) → rankMax r names < c := by
  intro names hc h
  induction names with
  | nil => exact hc
  | cons a rest ih =>
    exact max_lt (h a (List.mem_cons_self a rest)) (ih fun j hj => h j (List.mem_cons_of_mem a hj))

theorem rankMax_le_of_subset {r : String → Nat} :
    ∀ {n1 n2 : List String}, n1 ⊆ n2 → rankMax r n1 ≤ rankMax r n2 := by
  intro n1 n2 h
  induction n1 with
  | nil => exact Nat.zero_le _
  | cons a rest ih =>
    exact max_le (le_rankMax_of_mem (h (List.mem_cons_self a rest)))
      (ih fun x hx => h (List.mem_cons_of_mem a hx))

theorem nodeDepth_le_fieldsDepth {v : PyVal} :
    ∀ {fs : List (String × PyVal)} {k : String}, (k, v) ∈ fs → nodeDepth v ≤ fieldsDepth fs := by
  intro fs k h
  induction fs with
  | nil => cases h
  | cons kv rest ih =>
    rcases List.mem_cons.mp h with heq | h2
    · obtain ⟨k1, v1⟩ := kv
      cases heq
      exact le_max_left _ _
    · obtain ⟨k1, v1⟩ := kv
      exact le_trans (ih h2) (le_max_right _ _)

theorem nodeDepth_le_itemsDepth {v : PyVal} :
    ∀ {xs : List PyVal}, v ∈ xs → nodeDepth v ≤ itemsDepth xs := by
  intro xs h
  induction xs with
  | nil => cases h
  | cons a rest ih =>
    rcases List.mem_cons.mp h with rfl | h2
    · exact le_max_left _ _
    · exact le_trans (ih h2) (le_max_right _ _)

theorem refNamesIn_subset_fields {v : PyVal} :
    ∀ {fs : List (String × PyVal)} {k : String}, (k, v) ∈ fs →
      refNamesIn v ⊆ refNamesFields fs := by
  intro fs k h
  induction fs with
  | nil => cases h
  | cons kv rest ih =>
    rcases List.mem_cons.mp h with heq | h2
    · obtain ⟨k1, v1⟩ := kv
      cases heq
      exact fun x hx => by simp [refNamesFields, hx]
    · obtain ⟨k1, v1⟩ := kv
      exact fun x hx => by simp [refNamesFields, ih h2 hx]

theorem refNamesIn_subset_items {v : PyVal} :
    ∀ {xs : List PyVal}, v ∈ xs → refNamesIn v ⊆ refNamesItems xs := by
  intro xs h
  induction xs with
  | nil => cases h
  | cons a rest ih =>
    rcases List.mem_cons.mp h with rfl | h2
    · exact fun x hx => by simp [refNamesItems, hx]
    · exact fun x hx => by simp [refNamesItems, ih h2 hx]

theorem refNamesFields_subset_dict (fs : List (String × PyVal)) :
    refNamesFields fs ⊆ refNamesIn (.dict fs) := by
  intro x hx
  simp [refNamesIn, hx]

theorem dictGet_mem :
    ∀ {ds : List (String × PyVal)} {k : String} {v : PyVal},
      dictGet ds k = some v → (k, v) ∈ ds := by
  intro ds k v h
  induction ds with
  | nil => cases h
  | cons kv rest ih =>
    obtain ⟨k1, v1⟩ := kv
    by_cases heq : k1 = k
    · subst heq
      rw [dictGet, if_pos rfl] at h
      cases h
      exact List.mem_cons_self _ _
    · rw [dictGet, if_neg heq] at h
      exact List.mem_cons_of_mem _ (ih h)

theorem definitionsGet_depth_le {defs : PyVal} {k : String} {body : PyVal}
    (h : definitionsGet defs k = some body) : nodeDepth body ≤ defsDepthMax defs := by
  cases defs with
  | dict ds => exact nodeDepth_le_fieldsDepth (dictGet_mem h)
  | none => cases h
  | bool b => cases h
  | int i => cases h
  | float f => cases h
  | str s => cases h
  | list xs => cases h

theorem optMapFields_isSome {f : PyVal → Option PyVal} :
    ∀ {fs : List (String × PyVal)}, (∀ kv ∈ fs, (f kv.2).isSome = true) →
      (optMapFields f fs).isSome = true := by
  intro fs h
  induction fs with
  | nil => rfl
  | cons kv rest ih =>
    have h1 : (f kv.2).isSome = true := h kv (List.mem_cons_self _ _)
    have h2 : (optMapFields f rest).isSome = true :=
      ih fun x hx => h x (List.mem_cons_of_mem _ hx)
    obtain ⟨k1, v1⟩ := kv
    rcases Option.isSome_iff_exists.mp h1 with ⟨w1, hw1⟩
    rcases Option.isSome_iff_exists.mp h2 with ⟨w2, hw2⟩
    simp [optMapFields, hw1, hw2]

theorem optMapItems_isSome {f : PyVal → Option PyVal} :
    ∀ {xs : List PyVal}, (∀ v ∈ xs, (f v).isSome = true) →
      (optMapItems f xs).isSome = true := by
  intro xs h
  induction xs with
  | nil => rfl
  | cons v rest ih =>
    have h1 : (f v).isSome = true := h v (List.mem_cons_self _ _)
    have h2 : (optMapItems f rest).isSome = true :=
      ih fun x hx => h x (List.mem_cons_of_mem _ hx)
    rcases Option.isSome_iff_exists.mp h1 with ⟨w1, hw1⟩
    rcases Option.isSome_iff_exists.mp h2 with ⟨w2, hw2⟩
    simp [optMapItems, hw1, hw2]

/-- Sufficiency of `resolveBound`: under a ranking of the definition
names that strictly drops along every reference out of a (dict-valued)
definition body, `_resolve` reaches its result before the fuel runs out. -/
theorem resolveNode_isSome (defs : PyVal) (r : String → Nat)
    (hr : ∀ k tfs, definitionsGet defs k = some (.dict tfs) →
      1 ≤ r k ∧ ∀ j ∈ refNamesIn (.dict tfs), r j < r k) :
    ∀ fuel node, resolveBound defs r node ≤ fuel →
      (resolveNode defs fuel node).isSome = true := by
  intro fuel
  induction fuel with
  | zero =>
    intro node h
    exfalso
    have h1 := nodeDepth_pos node
    unfold resolveBound at h
    omega
  | succ fuel ih =>
    intro node h
    cases node with
    | none => simp [resolveNode]
    | bool b => simp [resolveNode]
    | int i => simp [resolveNode]
    | float f => simp [resolveNode]
    | str s => simp [resolveNode]
    | list xs =>
      have hitems : ∀ v ∈ xs, ((fun v => resolveNode defs fuel v) v).isSome = true := by
        intro v hv
        apply ih
        have hdepth : nodeDepth v ≤ itemsDepth xs := nodeDepth_le_itemsDepth hv
        have hsub : refNamesIn v ⊆ refNamesIn (.list xs) := by
          intro x hx
          simpa [refNamesIn] using refNamesIn_subset_items hv hx
        have hrank := rankMax_le_of_subset (r := r) hsub
        unfold resolveBound at h ⊢
        have hd : nodeDepth (.list xs) = 1 + itemsDepth xs := by simp [nodeDepth]
        have hmul : (rankMax r (refNamesIn v) + 1) * (defsDepthMax defs + 1)
            ≤ (rankMax r (refNamesIn (.list xs)) + 1) * (defsDepthMax defs + 1) :=
          Nat.mul_le_mul_right _ (by omega)
        omega
      rcases Option.isSome_iff_exists.mp (optMapItems_isSome hitems) with ⟨w, hw⟩
      simp [resolveNode, hw]
    | dict fs =>
      cases href : refKey fs with
      | none =>
        have hfields : ∀ kv ∈ fs, ((fun v => resolveNode defs fuel v) kv.2).isSome = true := by
          intro kv hkv
          obtain ⟨k1, v1⟩ := kv
          apply ih
          show resolveBound defs r v1 ≤ fuel
          have hdepth : nodeDepth v1 ≤ fieldsDepth fs := nodeDepth_le_fieldsDepth hkv
          have hsub : refNamesIn v1 ⊆ refNamesIn (.dict fs) := fun x hx =>
            refNamesFields_subset_dict fs (refNamesIn_subset_fields hkv hx)
          have hrank := rankMax_le_of_subset (r := r) hsub
          unfold resolveBound at h ⊢
          have hd : nodeDepth (.dict fs) = 1 + fieldsDepth fs := by simp [nodeDepth]
          have hmul : (rankMax r (refNamesIn v1) + 1) * (defsDepthMax defs + 1)
              ≤ (rankMax r (refNamesIn (.dict fs)) + 1) * (defsDepthMax defs + 1) :=
            Nat.mul_le_mul_right _ (by omega)
          omega
        rcases Option.isSome_iff_exists.mp (optMapFields_isSome hfields) with ⟨w, hw⟩
        simp [resolveNode, href, hw]
      | some key =>
        cases hdef : definitionsGet defs key with
        | none => simp [resolveNode, href, hdef]
        | some tv =>
          cases tv with
          | none => simp [resolveNode, href, hdef]
          | bool b => simp [resolveNode, href, hdef]
          | int i => simp [resolveNode, href, hdef]
          | float f => simp [resolveNode, href, hdef]
          | str s => simp [resolveNode, href, hdef]
          | list ys => simp [resolveNode, href, hdef]
          | dict tfs =>
            obtain ⟨hk1, hklt⟩ := hr key tfs hdef
            have hkmem : key ∈ refNamesIn (.dict fs) := by simp [refNamesIn, href]
            have hkle : r key ≤ rankMax r (refNamesIn (.dict fs)) :=
              le_rankMax_of_mem hkmem
            have hmRt : rankMax r (refNamesIn (.dict tfs)) < r key := rankMax_lt hk1 hklt
            have hdept : nodeDepth (.dict tfs) ≤ defsDepthMax defs :=
              definitionsGet_depth_le hdef
            have hb : resolveBound defs r (.dict tfs) ≤ fuel := by
              unfold resolveBound at h ⊢
              have hd : 1 ≤ nodeDepth (.dict fs) := nodeDepth_pos _
              have hmul : (rankMax r (refNamesIn (.dict tfs)) + 1) * (defsDepthMax defs + 1)
                  ≤ rankMax r (refNamesIn (.dict fs)) * (defsDepthMax defs + 1) :=
                Nat.mul_le_mul_right _ (by omega)
              have hexp : (rankMax r (refNamesIn (.dict fs)) + 1) * (defsDepthMax defs + 1)
                  = rankMax r (refNamesIn (.dict fs)) * (defsDepthMax defs + 1)
                    + (defsDepthMax defs + 1) := by ring
              omega
            rcases Option.isSome_iff_exists.mp (ih (.dict tfs) hb) with ⟨w, hw⟩
            simp [resolveNode, href, hdef, hw]

/-- A definition whose body is a `$ref` to itself. -/
def selfRefNode : PyVal := .dict [("$ref", .str "#/$defs/a")]

/-- The definitions map `{"a": {"$ref": "#/$defs/a"}}`. -/
def selfRefDefs : PyVal := .dict [("a", selfRefNode)]

/-- A schema whose `$defs` contains the self-referential definition. -/
def selfRefSchema : PyVal := .dict [("$defs", selfRefDefs)]

theorem selfRef_node_loops :
    ∀ fuel, resolveNode selfRefDefs fuel selfRefNode = Option.none := by
  intro fuel
  induction fuel with
  | zero => rfl
  | succ f ih =>
    have hstep : resolveNode selfRefDefs (f + 1) selfRefNode
        = (resolveNode selfRefDefs f selfRefNode).map
            (fun rt => .dict (dictUnion (asFields rt)
              (stripRef [("$ref", .str "#/$defs/a")]))) := rfl
    rw [hstep, ih]
    rfl

theorem selfRef_defs_loops :
    ∀ fuel, resolveNode selfRefDefs fuel selfRefDefs = Option.none := by
  intro fuel
  cases fuel with
  | zero => rfl
  | succ f =>
    have hstep : resolveNode selfRefDefs (f + 1) selfRefDefs
        = (optMapFields (fun v => resolveNode selfRefDefs f v)
            [("a", selfRefNode)]).map PyVal.dict := rfl
    rw [hstep]
    simp [optMapFields, selfRef_node_loops f]

/-- C10: termination of `$ref` resolution.  (1) For every schema whose
definition-reference graph admits a ranking — a strictly decreasing
measure along every `$ref` out of a definition body, which exists exactly
when the reference graph among the definitions is acyclic — some fuel
suffices, i.e. the source recursion terminates.  (2) For the schema whose
`$defs` entry `a` is a `$ref` to itself, no amount of fuel suffices: the
recursive step re-resolves the referenced definition before merging, so
the source loops forever. -/
theorem resolve_refs_termination_spec :
    (∀ (schema : PyVal) (r : String → Nat),
      (∀ k tfs, definitionsGet (schemaDefinitions schema) k = some (.dict tfs) →
        1 ≤ r k ∧ ∀ j ∈ refNamesIn (.dict tfs), r j < r k) →
      ∃ fuel out, resolveDifySchemaRefs fuel schema = some out) ∧
    (∀ fuel, resolveDifySchemaRefs fuel selfRefSchema = Option.none) := by
  constructor
  · intro schema r hr
    cases schema with
    | dict fs =>
      refine ⟨resolveBound (schemaDefinitions (.dict fs)) r (.dict fs), ?_⟩
      have hs := resolveNode_isSome (schemaDefinitions (.dict fs)) r hr _ (.dict fs) le_rfl
      rcases Option.isSome_iff_exists.mp hs with ⟨w, hw⟩
      exact ⟨w, by simpa [resolveDifySchemaRefs] using hw⟩
    | none => exact ⟨0, .none, rfl⟩
    | bool b => exact ⟨0, .bool b, rfl⟩
    | int i => exact ⟨0, .int i, rfl⟩
    | float f => exact ⟨0, .float f, rfl⟩
    | str s => exact ⟨0, .str s, rfl⟩
    | list xs => exact ⟨0, .list xs, rfl⟩
  · intro fuel
    cases fuel with
    | zero => rfl
    | succ f =>
      have hstep : resolveDifySchemaRefs (f + 1) selfRefSchema
          = (optMapFields (fun v => resolveNode selfRefDefs f v)
              [("$defs", selfRefDefs)]).map PyVal.dict := rfl
      rw [hstep]
      simp [optMapFields, selfRef_defs_loops f]

/-- Witness for C10: the Point schema (one resolvable, non-cyclic `$ref`)
resolves under the constant-1 ranking with some fuel, and the
self-referential schema resolves under no fuel at all. -/
theorem resolve_refs_termination_spec_witness :
    (∃ fuel out, resolveDifySchemaRefs fuel
      (.dict [("$defs", .dict [("Point", .dict [("x", .str "number")])]),
              ("p", .dict [("$ref", .str "#/$defs/Point")])]) = some out) ∧
    resolveDifySchemaRefs 5 selfRefSchema = Option.none := by
  constructor
  · apply resolve_refs_termination_spec.1
      (.dict [("$defs", .dict [("Point", .dict [("x", .str "number")])]),
              ("p", .dict [("$ref", .str "#/$defs/Point")])]) (fun _ => 1)
    intro k tfs h
    have h2 : (if "Point" = k then some (PyVal.dict [("x", .str "number")]) else Option.none)
        = some (.dict tfs) := h
    refine ⟨le_refl 1, ?_⟩
    intro j hj
    exfalso
    by_cases hk : "Point" = k
    · rw [if_pos hk] at h2
      cases h2
      simp [refNamesIn, refNamesFields, refKey, dictGet] at hj
    · rw [if_neg hk] at h2
      cases h2
  · exact resolve_refs_termination_spec.2 5

end DifyClient
